import Mathlib

/-!
Shallow embedding of the inference serving core of `src/scripts/06_serve.py`
(the Lumi model server): the template formatter, the generation parameter
set, the `ModelServer.generate` pipeline, the FastAPI generation endpoint
and the interactive console loop step.

The external capabilities (HuggingFace tokenizer encode/decode and the
model's `generate`) are opaque in the source; they appear here as function
fields returning `Except String _`, since any of them may raise.  Python
floats are carried through unchanged by this code (never computed with), so
they are embedded as exact rationals.  Python `len`/slicing on `str` counts
code points, matching `String.length`/`String.drop` on `Char`s.
-/

/-- The tokenizer handle as used by `06_serve.py`: a possibly-missing pad
token, an eos token, and the opaque encode/decode capabilities.
`decodeSkipSpecial` models `tokenizer.decode(·, skip_special_tokens=True)`. -/
structure Tokenizer where
  pad_token : Option String
  pad_token_id : Option Nat
  eos_token : String
  eos_token_id : Nat
  encode : String → Except String (List Nat)
  decodeSkipSpecial : List Nat → Except String String

/-- The load-time fixup in `ModelServer.__init__` (lines 61-62):
`if self.tokenizer.pad_token is None: self.tokenizer.pad_token = self.tokenizer.eos_token`
(setting the pad token also sets the derived pad token id). -/
def fixupPadToken (t : Tokenizer) : Tokenizer :=
  if t.pad_token = none then
    { t with pad_token := some t.eos_token, pad_token_id := some t.eos_token_id }
  else t

/-- The `generation_config` dict built inside `ModelServer.generate`
(lines 127-138). -/
structure GenerationConfig where
  max_new_tokens : Int
  temperature : Rat
  top_p : Rat
  repetition_penalty : Rat
  do_sample : Bool
  pad_token_id : Nat
  eos_token_id : Nat
  early_stopping : Bool
  no_repeat_ngram_size : Nat

/-- Construction of the `generation_config` dict: the caller-supplied knobs
plus `pad_token_id`/`eos_token_id` taken from the tokenizer and the two
hard-coded constants `early_stopping = True`, `no_repeat_ngram_size = 3`. -/
def mkGenerationConfig (tokenizer : Tokenizer) (max_new_tokens : Int)
    (temperature top_p repetition_penalty : Rat) (do_sample : Bool) :
    GenerationConfig :=
  { max_new_tokens := max_new_tokens
    temperature := temperature
    top_p := top_p
    repetition_penalty := repetition_penalty
    do_sample := do_sample
    pad_token_id := tokenizer.eos_token_id
    eos_token_id := tokenizer.eos_token_id
    early_stopping := true
    no_repeat_ngram_size := 3 }

/-- The `ModelServer` state: the (fixed-up) tokenizer and the opaque
`self.model.generate(input_ids, attention_mask=..., **generation_config)`
capability. -/
structure ModelServer where
  tokenizer : Tokenizer
  modelGenerate : List Nat → List Nat → GenerationConfig → Except String (List Nat)

/-- `ModelServer.__init__`: stores the model capability and the tokenizer
after the pad-token fixup. -/
def mkModelServer (tok : Tokenizer)
    (modelGen : List Nat → List Nat → GenerationConfig → Except String (List Nat)) :
    ModelServer :=
  { tokenizer := fixupPadToken tok, modelGenerate := modelGen }

/-- Python's `str.strip()` on the string's code points: drop whitespace from
both ends.  (Python strips the Unicode whitespace class; this development
only ever strips ASCII whitespace, which `Char.isWhitespace` covers.) -/
def pyStrip (s : String) : String :=
  ⟨((s.data.dropWhile Char.isWhitespace).reverse.dropWhile Char.isWhitespace).reverse⟩

/-- Python's `str.lower()` on the string's code points.  (Only ASCII letters
occur in the console's exit keywords, which `Char.toLower` covers.) -/
def pyLower (s : String) : String :=
  ⟨s.data.map Char.toLower⟩

/-- `ModelServer.format_prompt` (lines 70-89): pure template dispatch with a
permissive fallback to the raw prompt. -/
def format_prompt (prompt : String) (template : String) : String :=
  if template = "chatml" then
    "<|im_start|>user\n" ++ prompt ++ "\n<|im_end|>\n<|im_start|>assistant\n"
  else if template = "chat" then
    "Human: " ++ prompt ++ "\n\nAssistant: "
  else if template = "instruct" then
    "### Instruction:\n" ++ prompt ++ "\n\n### Response:\n"
  else
    prompt

/-- `ModelServer.generate` (lines 91-154): format, tokenize with
`truncation=True, max_length=2048` (embedded as `List.take 2048`), build the
generation config, run the model with an attention mask covering the input,
decode with special tokens skipped, then cut the formatted prompt off by
character count and strip surrounding whitespace. -/
def ModelServer.generate (server : ModelServer) (prompt : String)
    (max_new_tokens : Int) (temperature : Rat) (top_p : Rat)
    (repetition_penalty : Rat) (do_sample : Bool) (template : String) :
    Except String (String × String) :=
  let formatted_prompt := format_prompt prompt template
  match server.tokenizer.encode formatted_prompt with
  | .error e => .error e
  | .ok encoded =>
    let input_ids := encoded.take 2048
    let attention_mask := List.replicate input_ids.length 1
    let generation_config :=
      mkGenerationConfig server.tokenizer max_new_tokens temperature top_p
        repetition_penalty do_sample
    match server.modelGenerate input_ids attention_mask generation_config with
    | .error e => .error e
    | .ok outputs =>
      match server.tokenizer.decodeSkipSpecial outputs with
      | .error e => .error e
      | .ok full_response =>
        .ok (formatted_prompt, pyStrip (full_response.drop formatted_prompt.length))

/-- The pydantic `GenerationRequest` (lines 22-30), with its field defaults. -/
structure GenerationRequest where
  prompt : String
  max_new_tokens : Int := 100
  temperature : Rat := 7/10
  top_p : Rat := 9/10
  repetition_penalty : Rat := 11/10
  do_sample : Bool := true
  template : String := "chatml"

/-- Pydantic construction of a `GenerationRequest` from a payload in which
each of the six decoding fields may be absent: an absent field takes its
declared default. -/
def mkGenerationRequest (prompt : String)
    (max_new_tokens : Option Int) (temperature : Option Rat)
    (top_p : Option Rat) (repetition_penalty : Option Rat)
    (do_sample : Option Bool) (template : Option String) : GenerationRequest :=
  { prompt := prompt
    max_new_tokens := max_new_tokens.getD 100
    temperature := temperature.getD (7/10)
    top_p := top_p.getD (9/10)
    repetition_penalty := repetition_penalty.getD (11/10)
    do_sample := do_sample.getD true
    template := template.getD "chatml" }

/-- The `generation_config` echo dict of the API response (lines 211-217):
five of the request's fields; `do_sample` is not echoed. -/
structure GenerationConfigEcho where
  max_new_tokens : Int
  temperature : Rat
  top_p : Rat
  repetition_penalty : Rat
  template : String

/-- The pydantic `GenerationResponse` (lines 33-37). -/
structure GenerationResponse where
  response : String
  prompt : String
  generation_config : GenerationConfigEcho

/-- Outcome of the `/generate` endpoint: either a 200 body or an
`HTTPException(status_code, detail)`. -/
inductive ApiResult where
  | success (body : GenerationResponse)
  | httpError (status_code : Nat) (detail : String)

/-- The `POST /generate` handler of `create_app` (lines 185-220): call the
model server with the request's fields; on success wrap the completion and
the echo config, on any exception raise a 500 carrying the cause. -/
def apiGenerate (server : ModelServer) (request : GenerationRequest) : ApiResult :=
  match server.generate request.prompt request.max_new_tokens request.temperature
      request.top_p request.repetition_penalty request.do_sample request.template with
  | .ok (_, response) =>
      .success
        { response := response
          prompt := request.prompt
          generation_config :=
            { max_new_tokens := request.max_new_tokens
              temperature := request.temperature
              top_p := request.top_p
              repetition_penalty := request.repetition_penalty
              template := request.template } }
  | .error e => .httpError 500 ("Erreur de génération: " ++ e)

/-- The console's fixed generation parameters, taken from the CLI args. -/
structure ConsoleArgs where
  max_new_tokens : Int
  temperature : Rat
  top_p : Rat
  repetition_penalty : Rat
  do_sample : Bool
  template : String

/-- One console read: either end-of-input (EOFError/KeyboardInterrupt at the
`input()` call) or a line of text. -/
inductive ConsoleInput where
  | eofInterrupt
  | line (s : String)

/-- Observable outcome of one iteration of the `interactive_mode` loop:
the loop terminates, or continues without calling the engine, or continues
after calling the engine and printing `printed`. -/
inductive ConsoleStep where
  | exitLoop
  | continueNoCall
  | continueWithOutput (printed : String)

/-- One iteration of the `interactive_mode` loop body (lines 236-270):
strip the input; exit on end-of-input or a case-insensitive exit keyword;
skip empty input; otherwise generate and print the completion, or print an
inline error message and keep looping. -/
def consoleStep (server : ModelServer) (args : ConsoleArgs)
    (input : ConsoleInput) : ConsoleStep :=
  match input with
  | .eofInterrupt => .exitLoop
  | .line raw =>
    let user_input := pyStrip raw
    if pyLower user_input ∈ ["exit", "quit", "q"] then
      .exitLoop
    else if user_input = "" then
      .continueNoCall
    else
      match server.generate user_input args.max_new_tokens args.temperature
          args.top_p args.repetition_penalty args.do_sample args.template with
      | .ok (_, response) => .continueWithOutput response
      | .error e => .continueWithOutput ("❌ Erreur lors de la génération: " ++ e)

/-- Claim C2: `format_prompt` is a pure function of its arguments (it is a
Lean function, hence deterministic) returning exactly the chatml, chat and
instruct wrappings stated, and the prompt unchanged for `"raw"` or any other
unrecognized template value. -/
theorem format_prompt_spec (P : String) :
    format_prompt P "chatml" =
      "<|im_start|>user\n" ++ P ++ "\n<|im_end|>\n<|im_start|>assistant\n"
  ∧ format_prompt P "chat" = "Human: " ++ P ++ "\n\nAssistant: "
  ∧ format_prompt P "instruct" = "### Instruction:\n" ++ P ++ "\n\n### Response:\n"
  ∧ format_prompt P "raw" = P
  ∧ (∀ T : String, T ≠ "chatml" → T ≠ "chat" → T ≠ "instruct" →
      format_prompt P T = P) := by
  refine ⟨rfl, ?_, ?_, ?_, ?_⟩
  · simp [format_prompt]
  · simp [format_prompt]
  · simp [format_prompt]
  · intro T h1 h2 h3
    simp [format_prompt, h1, h2, h3]

/-- Witness for C2 at a concrete unrecognized template. -/
theorem format_prompt_spec_witness : format_prompt "hello" "gibberish" = "hello" :=
  (format_prompt_spec "hello").2.2.2.2 "gibberish" (by decide) (by decide) (by decide)

/-- Claim C6: a request built from a payload supplying only the prompt gets
exactly the defaults `max_new_tokens = 100`, `temperature = 0.7`,
`top_p = 0.9`, `repetition_penalty = 1.1`, `do_sample = true`,
`template = "chatml"`, and each field defaults independently of what the
other five supply. -/
theorem generationRequest_defaults (p : String) :
    (mkGenerationRequest p none none none none none none =
      { prompt := p, max_new_tokens := 100, temperature := 7/10, top_p := 9/10,
        repetition_penalty := 11/10, do_sample := true, template := "chatml" })
  ∧ (∀ o1 o2 o3 o4 o5 o6,
      (mkGenerationRequest p none o2 o3 o4 o5 o6).max_new_tokens = 100
    ∧ (mkGenerationRequest p o1 none o3 o4 o5 o6).temperature = 7/10
    ∧ (mkGenerationRequest p o1 o2 none o4 o5 o6).top_p = 9/10
    ∧ (mkGenerationRequest p o1 o2 o3 none o5 o6).repetition_penalty = 11/10
    ∧ (mkGenerationRequest p o1 o2 o3 o4 none o6).do_sample = true
    ∧ (mkGenerationRequest p o1 o2 o3 o4 o5 none).template = "chatml") :=
  ⟨rfl, fun _ _ _ _ _ _ => ⟨rfl, rfl, rfl, rfl, rfl, rfl⟩⟩

/-- Claim C5: whatever the caller supplies for the six knobs, the generation
config handed to the model has `early_stopping = true` and
`no_repeat_ngram_size = 3`, and its pad/eos token ids both come from the
loaded tokenizer. -/
theorem generationConfig_constants (tok : Tokenizer) (mnt : Int)
    (temp tp rp : Rat) (ds : Bool) :
    (mkGenerationConfig tok mnt temp tp rp ds).early_stopping = true
  ∧ (mkGenerationConfig tok mnt temp tp rp ds).no_repeat_ngram_size = 3
  ∧ (mkGenerationConfig tok mnt temp tp rp ds).pad_token_id = tok.eos_token_id
  ∧ (mkGenerationConfig tok mnt temp tp rp ds).eos_token_id = tok.eos_token_id :=
  ⟨rfl, rfl, rfl, rfl⟩

/-- Claim C10: the config's `pad_token_id` is the tokenizer's
`eos_token_id`, even for a tokenizer whose own pad token id is distinct from
its eos token id, and the load-time pad-token fixup never changes the
generation config. -/
theorem pad_token_id_is_eos (tok : Tokenizer) (mnt : Int)
    (temp tp rp : Rat) (ds : Bool)
    (hdistinct : tok.pad_token_id ≠ some tok.eos_token_id) :
    (mkGenerationConfig ((mkModelServer tok fun _ _ _ => .error "").tokenizer)
        mnt temp tp rp ds).pad_token_id = tok.eos_token_id
  ∧ mkGenerationConfig (fixupPadToken tok) mnt temp tp rp ds =
      mkGenerationConfig tok mnt temp tp rp ds := by
  constructor
  · simp only [mkModelServer, mkGenerationConfig, fixupPadToken]
    split <;> rfl
  · simp only [mkGenerationConfig, fixupPadToken]
    split <;> rfl

/-- Concrete tokenizer whose pad token id (3) differs from its eos token id
(7), for the C10 witness. -/
def distinctPadTokenizer : Tokenizer :=
  { pad_token := some "<pad>"
    pad_token_id := some 3
    eos_token := "</s>"
    eos_token_id := 7
    encode := fun _ => .ok [1]
    decodeSkipSpecial := fun _ => .ok "" }

/-- Witness for C10 at a tokenizer with a pad token distinct from eos. -/
theorem pad_token_id_is_eos_witness :
    (mkGenerationConfig
        ((mkModelServer distinctPadTokenizer fun _ _ _ => .error "").tokenizer)
        100 (7/10) (9/10) (11/10) true).pad_token_id = 7 :=
  (pad_token_id_is_eos distinctPadTokenizer 100 (7/10) (9/10) (11/10) true
    (by decide)).1

/-- Claim C3: whenever the three opaque capabilities succeed, `generate`
returns the formatted prompt together with the decoded full output with its
first `formatted_prompt.length` characters removed and surrounding
whitespace trimmed. -/
theorem generate_completion_extraction (server : ModelServer) (prompt : String)
    (mnt : Int) (temp tp rp : Rat) (ds : Bool) (template : String)
    (toks out : List Nat) (full : String)
    (henc : server.tokenizer.encode (format_prompt prompt template) = .ok toks)
    (hmod : server.modelGenerate (toks.take 2048)
        (List.replicate (toks.take 2048).length 1)
        (mkGenerationConfig server.tokenizer mnt temp tp rp ds) = .ok out)
    (hdec : server.tokenizer.decodeSkipSpecial out = .ok full) :
    server.generate prompt mnt temp tp rp ds template =
      .ok (format_prompt prompt template,
        pyStrip (full.drop (format_prompt prompt template).length)) := by
  simp only [ModelServer.generate, henc, hmod, hdec]

/-- Concrete server for the C3 witness: its capabilities are constant
functions, and its decode result is the chatml-formatted prompt followed by
"Bonjour!" and trailing blanks. -/
def demoServer : ModelServer :=
  { tokenizer :=
      { pad_token := some "<pad>"
        pad_token_id := some 5
        eos_token := "</s>"
        eos_token_id := 7
        encode := fun _ => .ok [1, 2, 3]
        decodeSkipSpecial := fun _ =>
          .ok "<|im_start|>user\nhi\n<|im_end|>\n<|im_start|>assistant\nBonjour!  " }
    modelGenerate := fun _ _ _ => .ok [1, 2, 3, 9, 9] }

/-- Witness for C3 at the concrete demo server. -/
theorem generate_completion_extraction_witness :
    demoServer.generate "hi" 100 (7/10) (9/10) (11/10) true "chatml" =
      .ok (format_prompt "hi" "chatml",
        pyStrip (("<|im_start|>user\nhi\n<|im_end|>\n<|im_start|>assistant\nBonjour!  ").drop
          (format_prompt "hi" "chatml").length)) :=
  generate_completion_extraction demoServer "hi" 100 (7/10) (9/10) (11/10) true
    "chatml" [1, 2, 3] [1, 2, 3, 9, 9]
    "<|im_start|>user\nhi\n<|im_end|>\n<|im_start|>assistant\nBonjour!  "
    rfl rfl rfl

/-- Dropping the length of the left factor of an append leaves the right
factor. -/
theorem drop_length_append (s t : String) : (s ++ t).drop s.length = t := by
  apply String.ext
  rw [String.data_drop, String.data_append, String.length]
  exact List.drop_left s.data t.data

/-- Concrete server refuting C4 as stated: with the raw template the
formatted prompt is "ab", and the model's decoded output "abab" repeats it,
so the returned completion "ab" still starts with the formatted prompt. -/
def echoServer : ModelServer :=
  { tokenizer :=
      { pad_token := none
        pad_token_id := none
        eos_token := "</s>"
        eos_token_id := 0
        encode := fun _ => .ok [1, 2]
        decodeSkipSpecial := fun _ => .ok "abab" }
    modelGenerate := fun _ _ _ => .ok [1, 2, 1, 2] }

/-- Counterexample to C4 as stated: a generate call whose completion does
have the formatted prompt as a leading substring. -/
theorem generate_prefix_counterexample :
    echoServer.generate "ab" 100 (7/10) (9/10) (11/10) true "raw" = .ok ("ab", "ab")
  ∧ format_prompt "ab" "raw" = "ab"
  ∧ (format_prompt "ab" "raw").data.isPrefixOf ("ab").data = true :=
  ⟨rfl, rfl, by decide⟩

/-- Claim C4 (amended): `generate` always removes the first
`formatted_prompt.length` characters of the decoded output; hence whenever
the decoded output is the formatted prompt followed by a remainder whose
stripped form does not itself begin with the formatted prompt, the returned
completion does not have the formatted prompt as a leading substring. -/
theorem generate_prefix_stripped (server : ModelServer) (prompt : String)
    (mnt : Int) (temp tp rp : Rat) (ds : Bool) (template : String)
    (toks out : List Nat) (rest : String)
    (henc : server.tokenizer.encode (format_prompt prompt template) = .ok toks)
    (hmod : server.modelGenerate (toks.take 2048)
        (List.replicate (toks.take 2048).length 1)
        (mkGenerationConfig server.tokenizer mnt temp tp rp ds) = .ok out)
    (hdec : server.tokenizer.decodeSkipSpecial out =
        .ok (format_prompt prompt template ++ rest))
    (hnorepeat : (format_prompt prompt template).data.isPrefixOf
        (pyStrip rest).data = false) :
    server.generate prompt mnt temp tp rp ds template =
      .ok (format_prompt prompt template, pyStrip rest)
  ∧ ∀ fp completion,
      server.generate prompt mnt temp tp rp ds template = .ok (fp, completion) →
      fp.data.isPrefixOf completion.data = false := by
  have h1 : server.generate prompt mnt temp tp rp ds template =
      .ok (format_prompt prompt template,
        pyStrip ((format_prompt prompt template ++ rest).drop
          (format_prompt prompt template).length)) := by
    simp only [ModelServer.generate, henc, hmod, hdec]
  rw [drop_length_append] at h1
  refine ⟨h1, ?_⟩
  intro fp completion heq
  rw [h1] at heq
  simp only [Except.ok.injEq, Prod.mk.injEq] at heq
  obtain ⟨h2, h3⟩ := heq
  rw [← h2, ← h3]
  exact hnorepeat

/-- Witness for the amended C4 at the concrete demo server. -/
theorem generate_prefix_stripped_witness :
    demoServer.generate "hi" 100 (7/10) (9/10) (11/10) true "chatml" =
      .ok (format_prompt "hi" "chatml", pyStrip "Bonjour!  ") :=
  (generate_prefix_stripped demoServer "hi" 100 (7/10) (9/10) (11/10) true
    "chatml" [1, 2, 3] [1, 2, 3, 9, 9] "Bonjour!  " rfl rfl rfl (by decide)).1

/-- Claim C8: the token sequence handed to the model is the encoding of the
formatted prompt truncated to 2048 tokens; when the encoding is longer, the
excess is dropped (the model sees exactly 2048 tokens, fewer than were
encoded) and `generate` still returns a result rather than an error. -/
theorem generate_truncates (server : ModelServer) (prompt : String)
    (mnt : Int) (temp tp rp : Rat) (ds : Bool) (template : String)
    (toks out : List Nat) (full : String)
    (henc : server.tokenizer.encode (format_prompt prompt template) = .ok toks)
    (hlong : 2048 < toks.length)
    (hmod : server.modelGenerate (toks.take 2048)
        (List.replicate (toks.take 2048).length 1)
        (mkGenerationConfig server.tokenizer mnt temp tp rp ds) = .ok out)
    (hdec : server.tokenizer.decodeSkipSpecial out = .ok full) :
    (toks.take 2048).length = 2048
  ∧ (toks.take 2048).length < toks.length
  ∧ server.generate prompt mnt temp tp rp ds template =
      .ok (format_prompt prompt template,
        pyStrip (full.drop (format_prompt prompt template).length)) := by
  have hlen : (toks.take 2048).length = 2048 := by
    rw [List.length_take]
    omega
  refine ⟨hlen, by omega, ?_⟩
  simp only [ModelServer.generate, henc, hmod, hdec]

/-- Concrete server whose tokenizer encodes every prompt to 2049 tokens, for
the C8 witness. -/
def longServer : ModelServer :=
  { tokenizer :=
      { pad_token := some "<pad>"
        pad_token_id := some 1
        eos_token := "</s>"
        eos_token_id := 2
        encode := fun _ => .ok (List.replicate 2049 0)
        decodeSkipSpecial := fun _ => .ok "ok" }
    modelGenerate := fun _ _ _ => .ok [3] }

/-- Witness for C8 at a 2049-token encoding. -/
theorem generate_truncates_witness :
    ((List.replicate 2049 (0 : Nat)).take 2048).length = 2048
  ∧ ((List.replicate 2049 (0 : Nat)).take 2048).length <
      (List.replicate 2049 (0 : Nat)).length
  ∧ longServer.generate "hi" 100 (7/10) (9/10) (11/10) true "raw" =
      .ok (format_prompt "hi" "raw",
        pyStrip ("ok".drop (format_prompt "hi" "raw").length)) :=
  generate_truncates longServer "hi" 100 (7/10) (9/10) (11/10) true "raw"
    (List.replicate 2049 0) [3] "ok" rfl
    (by rw [List.length_replicate]; decide) rfl rfl

/-- Claim C9: a console line whose stripped, lowercased form is an exit
keyword terminates the loop, end-of-input terminates the loop, and an empty
line just continues — all independently of the model server (for every
server the step is the same engine-free outcome). -/
theorem console_exit_keywords (server : ModelServer) (args : ConsoleArgs)
    (s : String)
    (hkw : pyLower (pyStrip s) ∈ (["exit", "quit", "q"] : List String)) :
    consoleStep server args (.line s) = .exitLoop
  ∧ consoleStep server args .eofInterrupt = .exitLoop
  ∧ (∀ s2 : String, pyStrip s2 = "" →
      consoleStep server args (.line s2) = .continueNoCall) := by
  refine ⟨?_, rfl, ?_⟩
  · simp only [consoleStep]
    rw [if_pos hkw]
  · intro s2 h2
    have hnk : ¬ pyLower (pyStrip s2) ∈ (["exit", "quit", "q"] : List String) := by
      rw [h2]; decide
    simp only [consoleStep]
    rw [if_neg hnk, if_pos h2]

/-- Concrete console args for witnesses. -/
def demoArgs : ConsoleArgs :=
  { max_new_tokens := 100
    temperature := 7/10
    top_p := 9/10
    repetition_penalty := 11/10
    do_sample := true
    template := "chatml" }

/-- Witness for C9 at the keyword "EXIT", at end-of-input, and at an empty
line. -/
theorem console_exit_keywords_witness :
    consoleStep demoServer demoArgs (.line "EXIT") = .exitLoop
  ∧ consoleStep demoServer demoArgs .eofInterrupt = .exitLoop
  ∧ consoleStep demoServer demoArgs (.line "") = .continueNoCall :=
  ⟨(console_exit_keywords demoServer demoArgs "EXIT" (by decide)).1,
   (console_exit_keywords demoServer demoArgs "EXIT" (by decide)).2.1,
   (console_exit_keywords demoServer demoArgs "EXIT" (by decide)).2.2 "" rfl⟩

/-- Claim C7: a failure raised inside `generate` is recovered at the request
boundary — the API endpoint answers with a 500 carrying the cause and the
console prints an inline error message and keeps looping — and the engine
(a value, unchanged by the failed call) still serves a subsequent request
with valid input successfully. -/
theorem generation_failure_recovered (server : ModelServer)
    (req req2 : GenerationRequest) (args : ConsoleArgs) (s e e2 : String)
    (fp resp : String)
    (herr : server.generate req.prompt req.max_new_tokens req.temperature
        req.top_p req.repetition_penalty req.do_sample req.template = .error e)
    (hok : server.generate req2.prompt req2.max_new_tokens req2.temperature
        req2.top_p req2.repetition_penalty req2.do_sample req2.template =
        .ok (fp, resp))
    (hkw : ¬ pyLower (pyStrip s) ∈ (["exit", "quit", "q"] : List String))
    (hne : ¬ pyStrip s = "")
    (hcerr : server.generate (pyStrip s) args.max_new_tokens args.temperature
        args.top_p args.repetition_penalty args.do_sample args.template =
        .error e2) :
    apiGenerate server req = .httpError 500 ("Erreur de génération: " ++ e)
  ∧ apiGenerate server req2 =
      .success
        { response := resp
          prompt := req2.prompt
          generation_config :=
            { max_new_tokens := req2.max_new_tokens
              temperature := req2.temperature
              top_p := req2.top_p
              repetition_penalty := req2.repetition_penalty
              template := req2.template } }
  ∧ consoleStep server args (.line s) =
      .continueWithOutput ("❌ Erreur lors de la génération: " ++ e2) := by
  refine ⟨?_, ?_, ?_⟩
  · simp only [apiGenerate, herr]
  · simp only [apiGenerate, hok]
  · simp only [consoleStep]
    rw [if_neg hkw, if_neg hne, hcerr]

/-- Concrete server whose tokenizer fails exactly on the chatml-formatted
prompt "boom" and succeeds elsewhere, for the C7 witness. -/
def failServer : ModelServer :=
  { tokenizer :=
      { pad_token := some "<pad>"
        pad_token_id := some 1
        eos_token := "</s>"
        eos_token_id := 2
        encode := fun str =>
          if str = format_prompt "boom" "chatml" then .error "CUDA out of memory"
          else .ok [4]
        decodeSkipSpecial := fun _ => .ok "ok" }
    modelGenerate := fun _ _ _ => .ok [5] }

/-- Witness for C7: the request "boom" fails with a 500 carrying the cause,
the request "hi" on the same server still succeeds, and the console line
" boom " prints an inline error and continues. -/
theorem generation_failure_recovered_witness :
    apiGenerate failServer { prompt := "boom" } =
      .httpError 500 ("Erreur de génération: " ++ "CUDA out of memory")
  ∧ apiGenerate failServer { prompt := "hi" } =
      .success
        { response := pyStrip ("ok".drop (format_prompt "hi" "chatml").length)
          prompt := "hi"
          generation_config :=
            { max_new_tokens := 100
              temperature := 7/10
              top_p := 9/10
              repetition_penalty := 11/10
              template := "chatml" } }
  ∧ consoleStep failServer demoArgs (.line " boom ") =
      .continueWithOutput
        ("❌ Erreur lors de la génération: " ++ "CUDA out of memory") :=
  generation_failure_recovered failServer { prompt := "boom" } { prompt := "hi" }
    demoArgs " boom " "CUDA out of memory" "CUDA out of memory"
    (format_prompt "hi" "chatml")
    (pyStrip ("ok".drop (format_prompt "hi" "chatml").length))
    rfl rfl (by decide) (by decide) rfl
